import Mathlib

/-!
Verification of the Kolibri flatpak wrapper
(`kolibri-flatpak-utils/kolibri_wrapper.py`).

The wrapper compares a cached snapshot of content extensions against the
currently active set, classifies each per-channel difference into content
operations, applies them through the managed Kolibri process, and writes
the active set back to the cache only when every operation succeeded.

The embedding below mirrors the wrapper source.  The per-channel diff
record (`channel_compare`) is produced by a collaborator module; here it
is a plain record of exactly the fields the wrapper reads.  Process
execution is modelled by an executor assigning an exit code to each
invocation, with `subprocess.run(..., check=True)` semantics: a non-zero
exit code raises (modelled with `Except`).
-/

namespace KolibriWrapper

/-- The per-channel diff record consumed by
`KolibriContentOperation.from_channel_compare`: the fields of
`channel_compare` that the wrapper reads. -/
structure ChannelCompare where
  channel_id : String
  extension_dir : Option String
  added : Bool
  removed : Bool
  exclude_nodes_added : Bool
  include_nodes_removed : Bool
  new_include_node_ids : List String
  new_exclude_node_ids : List String
deriving Repr, DecidableEq

/-- The tagged operation variants: `KolibriContentOperation_ImportChannel`,
`KolibriContentOperation_ImportContent`, `KolibriContentOperation_RescanContent`
from the source, with the constructor fields each `__init__` stores. -/
inductive KolibriContentOperation where
  | ImportChannel (channel_id : String) (extension_dir : Option String)
  | ImportContent (channel_id : String) (extension_dir : Option String)
      (include_node_ids : List String) (exclude_node_ids : List String)
  | RescanContent (channel_id : String) (removed : Bool)
deriving Repr, DecidableEq

/-- `KolibriContentOperation.from_channel_compare`: the if/elif chain of the
source, with each `yield` collected in order into a list. -/
def from_channel_compare (c : ChannelCompare) : List KolibriContentOperation :=
  if c.added then
    [KolibriContentOperation.ImportChannel c.channel_id c.extension_dir,
     KolibriContentOperation.ImportContent c.channel_id c.extension_dir
       c.new_include_node_ids c.new_exclude_node_ids]
  else if c.removed then
    [KolibriContentOperation.RescanContent c.channel_id true]
  else if c.exclude_nodes_added then
    [KolibriContentOperation.RescanContent c.channel_id false]
  else if c.include_nodes_removed then
    [KolibriContentOperation.RescanContent c.channel_id false]
  else
    [KolibriContentOperation.ImportChannel c.channel_id c.extension_dir,
     KolibriContentOperation.ImportContent c.channel_id c.extension_dir
       c.new_include_node_ids c.new_exclude_node_ids]

/-- Branch 1 of the spec decision table: `added`. -/
def branch_added (c : ChannelCompare) : Bool := c.added

/-- Branch 2 of the spec decision table: `removed`, with the earlier branch
excluded (mutually exclusive form). -/
def branch_removed (c : ChannelCompare) : Bool := !c.added && c.removed

/-- Branch 3 of the spec decision table: `exclude_nodes_added`, with the
earlier branches excluded. -/
def branch_exclude (c : ChannelCompare) : Bool :=
  !c.added && !c.removed && c.exclude_nodes_added

/-- Branch 4 of the spec decision table: `include_nodes_removed`, with the
earlier branches excluded. -/
def branch_include (c : ChannelCompare) : Bool :=
  !c.added && !c.removed && !c.exclude_nodes_added && c.include_nodes_removed

/-- Branch 5 of the spec decision table: the fall-through case. -/
def branch_otherwise (c : ChannelCompare) : Bool :=
  !c.added && !c.removed && !c.exclude_nodes_added && !c.include_nodes_removed

/-- Modelled from the spec (§4.3): the classification decision table written
with the five mutually exclusive branch guards, emitting the operations the
spec lists for each branch.  Used to compare the source's if/elif chain
against the spec's wording. -/
def classify_spec (c : ChannelCompare) : List KolibriContentOperation :=
  if branch_added c then
    [KolibriContentOperation.ImportChannel c.channel_id c.extension_dir,
     KolibriContentOperation.ImportContent c.channel_id c.extension_dir
       c.new_include_node_ids c.new_exclude_node_ids]
  else if branch_removed c then
    [KolibriContentOperation.RescanContent c.channel_id true]
  else if branch_exclude c then
    [KolibriContentOperation.RescanContent c.channel_id false]
  else if branch_include c then
    [KolibriContentOperation.RescanContent c.channel_id false]
  else
    [KolibriContentOperation.ImportChannel c.channel_id c.extension_dir,
     KolibriContentOperation.ImportContent c.channel_id c.extension_dir
       c.new_include_node_ids c.new_exclude_node_ids]

/-- Python's `x or d` on a string that may be `None`: the default is taken
when the value is absent or empty (both are falsy), the value itself
otherwise.  Mirrors `self.__extension_dir or KOLIBRI_HOME`. -/
def py_or_default (x : Option String) (d : String) : String :=
  match x with
  | none => d
  | some s => if s = "" then d else s

/-- The argument list each operation's `apply` passes to `run_kolibri_fn`.
`kolibri_home` is the `KOLIBRI_HOME` constant imported by the wrapper from
its globals module; the mapping is parametrised by it.
  * `ImportChannel.apply`: `manage scanforcontent --channels=<id>
    --skip-annotations` (the stored `extension_dir` is unused);
  * `ImportContent.apply`: `manage importcontent [--node_ids <joined>]
    [--exclude_node_ids <joined>] disk <id> (<extension_dir> or
    KOLIBRI_HOME)`, each node flag present iff its list is truthy
    (non-empty);
  * `RescanContent.apply`: `manage scanforcontent --channels=<id>
    [--channel-import-mode=none]`, the flag present iff `removed`. -/
def apply_args (kolibri_home : String) : KolibriContentOperation → List String
  | KolibriContentOperation.ImportChannel channel_id _ =>
      ["manage", "scanforcontent", "--channels=" ++ channel_id,
       "--skip-annotations"]
  | KolibriContentOperation.ImportContent channel_id extension_dir
      include_node_ids exclude_node_ids =>
      let nodes_args :=
        (if include_node_ids ≠ [] then
          ["--node_ids", String.intercalate "," include_node_ids]
        else []) ++
        (if exclude_node_ids ≠ [] then
          ["--exclude_node_ids", String.intercalate "," exclude_node_ids]
        else [])
      ["manage", "importcontent"] ++ nodes_args ++
        ["disk", channel_id, py_or_default extension_dir kolibri_home]
  | KolibriContentOperation.RescanContent channel_id removed =>
      ["manage", "scanforcontent", "--channels=" ++ channel_id] ++
        (if removed then ["--channel-import-mode=none"] else [])

/-- One active content extension, as iterated by `Application.__kolibri_env`
(only `content_dir` is read there). -/
structure ContentExtension where
  content_dir : String
deriving Repr, DecidableEq

/-- The value `Application.__kolibri_env` stores under
`KOLIBRI_CONTENT_FALLBACK_DIRS`: the active extensions' `content_dir`
values joined with `";"`, in iteration order. -/
def fallback_dirs (active : List ContentExtension) : String :=
  String.intercalate ";" (active.map ContentExtension.content_dir)

/-- The environment `Application.__kolibri_env` builds: a copy of the
process environment with `KOLIBRI_CONTENT_FALLBACK_DIRS` set. -/
def kolibri_env (environ : String → Option String)
    (active : List ContentExtension) : String → Option String :=
  fun key =>
    if key = "KOLIBRI_CONTENT_FALLBACK_DIRS" then some (fallback_dirs active)
    else environ key

/-- One recorded `subprocess.run` invocation: the argument list after the
`/app/libexec/kolibri` executable, and the value the passed environment
holds under `KOLIBRI_CONTENT_FALLBACK_DIRS`. -/
structure Invocation where
  args : List String
  env_fallback_dirs : String
deriving Repr, DecidableEq

/-- State threaded through a run: how many invocations have happened and
the recorded invocations in order. -/
structure ExecState where
  count : Nat
  invocations : List Invocation
deriving Repr

/-- `Application.__run_kolibri`: runs the process with `__kolibri_env`,
`check=True`.  `exec` assigns the process exit code to each invocation by
its position in the run.  With `check=True` a non-zero exit code raises
`CalledProcessError` (modelled as `Except.error` carrying that code);
otherwise `result.returncode` is returned. -/
def run_kolibri (exec : Nat → Int) (active : List ContentExtension)
    (s : ExecState) (args : List String) : ExecState × Except Int Int :=
  let code := exec s.count
  let s' : ExecState :=
    { count := s.count + 1,
      invocations := s.invocations ++ [⟨args, fallback_dirs active⟩] }
  if code = 0 then (s', Except.ok code) else (s', Except.error code)

/-- The generator expression `all(operation.apply(self.__run_kolibri) == 0
for operation in ...)`: operations are applied in order; `all` stops at the
first comparison yielding `False`, and a `CalledProcessError` raised inside
`apply` propagates immediately. -/
def apply_all (exec : Nat → Int) (active : List ContentExtension)
    (kolibri_home : String) :
    List KolibriContentOperation → ExecState → ExecState × Except Int Bool
  | [], s => (s, Except.ok true)
  | op :: rest, s =>
      match run_kolibri exec active s (apply_args kolibri_home op) with
      | (s', Except.error code) => (s', Except.error code)
      | (s', Except.ok code) =>
          if code = 0 then apply_all exec active kolibri_home rest s'
          else (s', Except.ok false)

/-- The observable outcome of `Application.run`: the invocations made, how
many times `write_to_cache` was called on the active set, and either the
value `run` returned (`Except.ok`) or the exit code carried by an uncaught
`CalledProcessError` (`Except.error`). -/
structure RunOutcome where
  invocations : List Invocation
  cache_writes : Nat
  returned : Except Int Int
deriving Repr

/-- `Application.run`: apply every content operation, write the active set
to the cache iff all succeeded, then run Kolibri once with the wrapper's
own command-line arguments (`sys.argv[1:]`) and return its result.  The
content-operation plan `ops` is the stream `__iter_content_operations`
yields (produced by the extensions collaborator from the cached and active
sets), and `argv` is `sys.argv[1:]`. -/
def Application_run (exec : Nat → Int) (active : List ContentExtension)
    (kolibri_home : String) (ops : List KolibriContentOperation)
    (argv : List String) : RunOutcome :=
  match apply_all exec active kolibri_home ops ⟨0, []⟩ with
  | (s, Except.error code) =>
      { invocations := s.invocations, cache_writes := 0,
        returned := Except.error code }
  | (s, Except.ok success) =>
      let cache_writes := if success then 1 else 0
      match run_kolibri exec active s argv with
      | (s', Except.error code) =>
          { invocations := s'.invocations, cache_writes := cache_writes,
            returned := Except.error code }
      | (s', Except.ok code) =>
          { invocations := s'.invocations, cache_writes := cache_writes,
            returned := Except.ok code }

/-! ## Classification theorems -/

/-- C2: for every `ChannelDiff`, the classification tests the predicates in
the exact order `added`, `removed`, `exclude_nodes_added`,
`include_nodes_removed`, otherwise; the first matching branch alone
determines the emitted operations, and exactly one of the five mutually
exclusive branches is taken. -/
theorem classification_decision_order (c : ChannelCompare) :
    from_channel_compare c = classify_spec c ∧
    [branch_added c, branch_removed c, branch_exclude c, branch_include c,
      branch_otherwise c].count true = 1 := by
  rcases c with ⟨cid, ext, a, r, ea, ir, ni, ne⟩
  cases a <;> cases r <;> cases ea <;> cases ir <;>
    simp [from_channel_compare, classify_spec, branch_added, branch_removed,
      branch_exclude, branch_include, branch_otherwise]

/-- C3: a diff with `added = true` classifies to exactly an `ImportChannel`
followed by an `ImportContent`, both carrying the diff's `channel_id` and
`extension_dir`, the latter with `new_include_node_ids` and
`new_exclude_node_ids`. -/
theorem added_channel_plan (c : ChannelCompare) (h : c.added = true) :
    from_channel_compare c =
      [KolibriContentOperation.ImportChannel c.channel_id c.extension_dir,
       KolibriContentOperation.ImportContent c.channel_id c.extension_dir
         c.new_include_node_ids c.new_exclude_node_ids] := by
  simp [from_channel_compare, h]

/-- Witness for `added_channel_plan` at a concrete diff. -/
theorem added_channel_plan_witness :
    from_channel_compare
        ⟨"chan1", some "/ext/dir", true, false, false, false, ["n1"], ["n2"]⟩ =
      [KolibriContentOperation.ImportChannel "chan1" (some "/ext/dir"),
       KolibriContentOperation.ImportContent "chan1" (some "/ext/dir")
         ["n1"] ["n2"]] :=
  added_channel_plan
    ⟨"chan1", some "/ext/dir", true, false, false, false, ["n1"], ["n2"]⟩ rfl

/-- C4: a diff with `added = false` and `removed = true` classifies to
exactly one `RescanContent` with the diff's `channel_id` and
`removed = true`. -/
theorem removed_channel_plan (c : ChannelCompare) (ha : c.added = false)
    (hr : c.removed = true) :
    from_channel_compare c =
      [KolibriContentOperation.RescanContent c.channel_id true] := by
  simp [from_channel_compare, ha, hr]

/-- Witness for `removed_channel_plan` at a concrete diff. -/
theorem removed_channel_plan_witness :
    from_channel_compare
        ⟨"chan2", none, false, true, false, false, [], []⟩ =
      [KolibriContentOperation.RescanContent "chan2" true] :=
  removed_channel_plan ⟨"chan2", none, false, true, false, false, [], []⟩
    rfl rfl

/-- C5: a persisting channel (`added = false`, `removed = false`) whose
diff has `exclude_nodes_added`, or has `exclude_nodes_added = false` and
`include_nodes_removed`, classifies to exactly one `RescanContent` with
`removed = false`. -/
theorem retraction_channel_plan (c : ChannelCompare) (ha : c.added = false)
    (hr : c.removed = false)
    (h : c.exclude_nodes_added = true ∨
      (c.exclude_nodes_added = false ∧ c.include_nodes_removed = true)) :
    from_channel_compare c =
      [KolibriContentOperation.RescanContent c.channel_id false] := by
  rcases h with h | ⟨h1, h2⟩
  · simp [from_channel_compare, ha, hr, h]
  · simp [from_channel_compare, ha, hr, h1, h2]

/-- Witness for `retraction_channel_plan` at a concrete diff. -/
theorem retraction_channel_plan_witness :
    from_channel_compare
        ⟨"chan3", some "/e", false, false, true, false, [], ["n1"]⟩ =
      [KolibriContentOperation.RescanContent "chan3" false] :=
  retraction_channel_plan
    ⟨"chan3", some "/e", false, false, true, false, [], ["n1"]⟩
    rfl rfl (Or.inl rfl)

/-- C9: every classification emits one or two operations; it emits two
exactly when the `added` branch or the fall-through branch is taken, and
then the plan is an `ImportChannel` followed by an `ImportContent` sharing
the diff's `channel_id` and `extension_dir`; a one-operation plan is a
`RescanContent` on the diff's `channel_id`. -/
theorem plan_shape (c : ChannelCompare) :
    ((from_channel_compare c).length = 1 ∨
      (from_channel_compare c).length = 2) ∧
    ((from_channel_compare c).length = 2 ↔
      (branch_added c = true ∨ branch_otherwise c = true)) ∧
    ((from_channel_compare c).length = 2 →
      from_channel_compare c =
        [KolibriContentOperation.ImportChannel c.channel_id c.extension_dir,
         KolibriContentOperation.ImportContent c.channel_id c.extension_dir
           c.new_include_node_ids c.new_exclude_node_ids]) ∧
    ((from_channel_compare c).length = 1 →
      ∃ b, from_channel_compare c =
        [KolibriContentOperation.RescanContent c.channel_id b]) := by
  rcases c with ⟨cid, ext, a, r, ea, ir, ni, ne⟩
  cases a <;> cases r <;> cases ea <;> cases ir <;>
    simp [from_channel_compare, branch_added, branch_otherwise]

/-- Witness for `plan_shape` at a concrete diff, discharging the
one-operation implication. -/
theorem plan_shape_witness :
    ∃ b, from_channel_compare
        ⟨"chan4", none, false, false, false, true, [], []⟩ =
      [KolibriContentOperation.RescanContent "chan4" b] :=
  (plan_shape ⟨"chan4", none, false, false, false, true, [], []⟩).2.2.2 rfl

/-! ## Argument-mapping theorems -/

/-- C6: the command mapped from each operation's fields.  `ImportChannel`
invokes `scanforcontent` with the channel flag and `--skip-annotations`;
`ImportContent` invokes `importcontent` in `disk` mode with the channel id
and content directory, passing `--node_ids` with the comma-joined include
set iff it is non-empty and `--exclude_node_ids` with the comma-joined
exclude set iff it is non-empty; `RescanContent` invokes `scanforcontent`
with the channel flag, adding `--channel-import-mode=none` iff `removed`. -/
theorem apply_command_mapping (home cid : String) (ext : Option String)
    (inc exc : List String) :
    apply_args home (KolibriContentOperation.ImportChannel cid ext) =
      ["manage", "scanforcontent", "--channels=" ++ cid,
        "--skip-annotations"] ∧
    (inc = [] → exc = [] →
      apply_args home (KolibriContentOperation.ImportContent cid ext inc exc) =
        ["manage", "importcontent", "disk", cid, py_or_default ext home]) ∧
    (inc ≠ [] → exc = [] →
      apply_args home (KolibriContentOperation.ImportContent cid ext inc exc) =
        ["manage", "importcontent", "--node_ids",
          String.intercalate "," inc, "disk", cid, py_or_default ext home]) ∧
    (inc = [] → exc ≠ [] →
      apply_args home (KolibriContentOperation.ImportContent cid ext inc exc) =
        ["manage", "importcontent", "--exclude_node_ids",
          String.intercalate "," exc, "disk", cid, py_or_default ext home]) ∧
    (inc ≠ [] → exc ≠ [] →
      apply_args home (KolibriContentOperation.ImportContent cid ext inc exc) =
        ["manage", "importcontent", "--node_ids",
          String.intercalate "," inc, "--exclude_node_ids",
          String.intercalate "," exc, "disk", cid,
          py_or_default ext home]) ∧
    apply_args home (KolibriContentOperation.RescanContent cid false) =
      ["manage", "scanforcontent", "--channels=" ++ cid] ∧
    apply_args home (KolibriContentOperation.RescanContent cid true) =
      ["manage", "scanforcontent", "--channels=" ++ cid,
        "--channel-import-mode=none"] := by
  refine ⟨by simp [apply_args], ?_, ?_, ?_, ?_, by simp [apply_args],
    by simp [apply_args]⟩ <;>
    · intro h1 h2
      simp [apply_args, h1, h2]

/-- Witness for `apply_command_mapping` at concrete node-id lists,
discharging the both-flags case. -/
theorem apply_command_mapping_witness :
    apply_args "/home"
        (KolibriContentOperation.ImportContent "cid" (some "/d")
          ["a", "b"] ["c"]) =
      ["manage", "importcontent", "--node_ids", "a,b",
        "--exclude_node_ids", "c", "disk", "cid", "/d"] :=
  (apply_command_mapping "/home" "cid" (some "/d") ["a", "b"] ["c"]).2.2.2.2.1
    (by simp) (by simp)

/-- C10: `ImportContent.apply` uses `KOLIBRI_HOME` as the disk-import
content directory when `extension_dir` is absent or empty, and uses
`extension_dir` verbatim otherwise; either way it is the final argument,
after `disk` and the channel id. -/
theorem import_content_dir_default (home cid : String)
    (inc exc : List String) :
    (∀ ext : Option String, ext = none ∨ ext = some "" →
      ∃ pre, apply_args home
          (KolibriContentOperation.ImportContent cid ext inc exc) =
        pre ++ ["disk", cid, home]) ∧
    (∀ s : String, s ≠ "" →
      ∃ pre, apply_args home
          (KolibriContentOperation.ImportContent cid (some s) inc exc) =
        pre ++ ["disk", cid, s]) := by
  constructor
  · rintro ext (rfl | rfl) <;>
      exact ⟨["manage", "importcontent"] ++
        (if inc ≠ [] then ["--node_ids", String.intercalate "," inc]
          else []) ++
        (if exc ≠ [] then ["--exclude_node_ids", String.intercalate "," exc]
          else []),
        by simp [apply_args, py_or_default]⟩
  · intro s hs
    exact ⟨["manage", "importcontent"] ++
      (if inc ≠ [] then ["--node_ids", String.intercalate "," inc]
        else []) ++
      (if exc ≠ [] then ["--exclude_node_ids", String.intercalate "," exc]
        else []),
      by simp [apply_args, py_or_default, hs]⟩

/-- Witness for `import_content_dir_default` at a concrete operation with
an empty extension directory. -/
theorem import_content_dir_default_witness :
    ∃ pre, apply_args "/kolibri-home"
        (KolibriContentOperation.ImportContent "cid" (some "") ["n"] []) =
      pre ++ ["disk", "cid", "/kolibri-home"] :=
  (import_content_dir_default "/kolibri-home" "cid" ["n"] []).1
    (some "") (Or.inr rfl)

/-! ## Run-loop lemmas -/

/-- `apply_all` reports overall success exactly when every planned
operation's process exit code is zero. -/
theorem apply_all_ok_iff (exec : Nat → Int) (active : List ContentExtension)
    (home : String) (ops : List KolibriContentOperation) (s : ExecState) :
    (apply_all exec active home ops s).2 = Except.ok true ↔
      ∀ i < ops.length, exec (s.count + i) = 0 := by
  induction ops generalizing s with
  | nil => simp [apply_all]
  | cons op rest ih =>
    by_cases h0 : exec s.count = 0
    · rw [show apply_all exec active home (op :: rest) s =
          apply_all exec active home rest
            ⟨s.count + 1, s.invocations ++
              [⟨apply_args home op, fallback_dirs active⟩]⟩ from by
        simp [apply_all, run_kolibri, h0]]
      rw [ih]
      constructor
      · intro H i hi
        cases i with
        | zero => simpa using h0
        | succ j =>
          have hj : j < rest.length := by simpa using Nat.lt_of_succ_lt_succ hi
          have := H j hj
          rwa [show s.count + (j + 1) = s.count + 1 + j from by omega]
      · intro H i hi
        have := H (i + 1) (by simpa using Nat.succ_lt_succ hi)
        rwa [show s.count + 1 + i = s.count + (i + 1) from by omega]
    · rw [show apply_all exec active home (op :: rest) s =
          (⟨s.count + 1, s.invocations ++
              [⟨apply_args home op, fallback_dirs active⟩]⟩,
            Except.error (exec s.count)) from by
        simp [apply_all, run_kolibri, h0]]
      simp only [List.length_cons]
      constructor
      · intro h
        exact absurd h (by simp)
      · intro H
        exact absurd (by simpa using H 0 (by omega)) h0

/-- When every planned operation's exit code is zero, `apply_all` executes
the whole plan in order, recording one invocation per operation. -/
theorem apply_all_all_zero (exec : Nat → Int)
    (active : List ContentExtension) (home : String)
    (ops : List KolibriContentOperation) (s : ExecState)
    (h : ∀ i < ops.length, exec (s.count + i) = 0) :
    apply_all exec active home ops s =
      (⟨s.count + ops.length,
        s.invocations ++ ops.map fun op =>
          (⟨apply_args home op, fallback_dirs active⟩ : Invocation)⟩,
       Except.ok true) := by
  induction ops generalizing s with
  | nil => simp [apply_all]
  | cons op rest ih =>
    have h0 : exec s.count = 0 := by simpa using h 0 (Nat.succ_pos _)
    have hrest : ∀ i < rest.length, exec (s.count + 1 + i) = 0 := by
      intro i hi
      have := h (i + 1) (by simpa using Nat.succ_lt_succ hi)
      rwa [show s.count + 1 + i = s.count + (i + 1) from by omega]
    rw [show apply_all exec active home (op :: rest) s =
        apply_all exec active home rest
          ⟨s.count + 1, s.invocations ++
            [⟨apply_args home op, fallback_dirs active⟩]⟩ from by
      simp [apply_all, run_kolibri, h0]]
    rw [ih _ hrest]
    simp only [Prod.mk.injEq, ExecState.mk.injEq, List.length_cons,
      List.map_cons, List.append_assoc, List.singleton_append]
    exact ⟨⟨by omega, trivial⟩, trivial⟩

/-- When the first non-zero exit code occurs at position `k` of the plan,
`apply_all` stops there: the invocations are exactly those of the first
`k + 1` operations and the raised `CalledProcessError` carries that exit
code. -/
theorem apply_all_first_fail (exec : Nat → Int)
    (active : List ContentExtension) (home : String)
    (ops : List KolibriContentOperation) (s : ExecState) (k : Nat)
    (hk : k < ops.length) (hzero : ∀ i < k, exec (s.count + i) = 0)
    (hfail : exec (s.count + k) ≠ 0) :
    apply_all exec active home ops s =
      (⟨s.count + k + 1,
        s.invocations ++ (ops.take (k + 1)).map fun op =>
          (⟨apply_args home op, fallback_dirs active⟩ : Invocation)⟩,
       Except.error (exec (s.count + k))) := by
  induction ops generalizing s k with
  | nil => simp at hk
  | cons op rest ih =>
    cases k with
    | zero =>
      have hf : exec s.count ≠ 0 := by simpa using hfail
      simp [apply_all, run_kolibri, hf]
    | succ k' =>
      have h0 : exec s.count = 0 := by simpa using hzero 0 (by omega)
      have hk' : k' < rest.length := by simpa using Nat.lt_of_succ_lt_succ hk
      have hzero' : ∀ i < k', exec (s.count + 1 + i) = 0 := by
        intro i hi
        have := hzero (i + 1) (by omega)
        rwa [show s.count + 1 + i = s.count + (i + 1) from by omega]
      have hfail' : exec (s.count + 1 + k') ≠ 0 := by
        rwa [show s.count + 1 + k' = s.count + (k' + 1) from by omega]
      rw [show apply_all exec active home (op :: rest) s =
          apply_all exec active home rest
            ⟨s.count + 1, s.invocations ++
              [⟨apply_args home op, fallback_dirs active⟩]⟩ from by
        simp [apply_all, run_kolibri, h0]]
      rw [ih _ k' hk' hzero' hfail']
      simp only [Prod.mk.injEq, ExecState.mk.injEq, List.take_succ_cons,
        List.map_cons, List.append_assoc, List.singleton_append]
      refine ⟨⟨by omega, trivial⟩, ?_⟩
      rw [show s.count + 1 + k' = s.count + (k' + 1) from by omega]

/-- Every invocation recorded during `apply_all` carries the
`KOLIBRI_CONTENT_FALLBACK_DIRS` value derived from the active set. -/
theorem apply_all_env_invariant (exec : Nat → Int)
    (active : List ContentExtension) (home : String)
    (ops : List KolibriContentOperation) (s : ExecState)
    (hs : ∀ inv ∈ s.invocations,
      inv.env_fallback_dirs = fallback_dirs active) :
    ∀ inv ∈ (apply_all exec active home ops s).1.invocations,
      inv.env_fallback_dirs = fallback_dirs active := by
  induction ops generalizing s with
  | nil => simpa [apply_all] using hs
  | cons op rest ih =>
    have hs' : ∀ inv ∈ s.invocations ++
        [(⟨apply_args home op, fallback_dirs active⟩ : Invocation)],
        inv.env_fallback_dirs = fallback_dirs active := by
      intro inv hinv
      rcases List.mem_append.mp hinv with h | h
      · exact hs inv h
      · rw [List.mem_singleton.mp h]
    by_cases h0 : exec s.count = 0
    · rw [show apply_all exec active home (op :: rest) s =
          apply_all exec active home rest
            ⟨s.count + 1, s.invocations ++
              [⟨apply_args home op, fallback_dirs active⟩]⟩ from by
        simp [apply_all, run_kolibri, h0]]
      exact ih _ hs'
    · rw [show apply_all exec active home (op :: rest) s =
          (⟨s.count + 1, s.invocations ++
              [⟨apply_args home op, fallback_dirs active⟩]⟩,
            Except.error (exec s.count)) from by
        simp [apply_all, run_kolibri, h0]]
      exact hs'

/-- When every operation of the plan succeeds, `Application.run` records
one invocation per operation followed by the final Kolibri invocation with
`argv`, writes the cache once, and the final invocation's exit code decides
whether `run` returns it or a `CalledProcessError` carrying it escapes. -/
theorem Application_run_all_zero (exec : Nat → Int)
    (active : List ContentExtension) (home : String)
    (ops : List KolibriContentOperation) (argv : List String)
    (h : ∀ i < ops.length, exec i = 0) :
    Application_run exec active home ops argv =
      { invocations := (ops.map fun op =>
            (⟨apply_args home op, fallback_dirs active⟩ : Invocation)) ++
          [⟨argv, fallback_dirs active⟩],
        cache_writes := 1,
        returned := if exec ops.length = 0 then Except.ok (exec ops.length)
          else Except.error (exec ops.length) } := by
  have h' : ∀ i < ops.length,
      exec ((⟨0, []⟩ : ExecState).count + i) = 0 := by
    intro i hi
    simpa using h i hi
  rw [Application_run, apply_all_all_zero exec active home ops ⟨0, []⟩ h']
  simp only [run_kolibri, Nat.zero_add]
  by_cases hc : exec ops.length = 0
  · rw [if_pos hc]
    simp [hc]
  · rw [if_neg hc]
    simp [hc]

/-- When the first non-zero exit code occurs at position `k` of the plan,
`Application.run` stops there: only the first `k + 1` operations are
invoked, the cache is never written, the final Kolibri invocation does not
happen, and the `CalledProcessError` escapes. -/
theorem Application_run_first_fail (exec : Nat → Int)
    (active : List ContentExtension) (home : String)
    (ops : List KolibriContentOperation) (argv : List String) (k : Nat)
    (hk : k < ops.length) (hzero : ∀ i < k, exec i = 0)
    (hfail : exec k ≠ 0) :
    Application_run exec active home ops argv =
      { invocations := (ops.take (k + 1)).map fun op =>
          (⟨apply_args home op, fallback_dirs active⟩ : Invocation),
        cache_writes := 0,
        returned := Except.error (exec k) } := by
  have hzero' : ∀ i < k, exec ((⟨0, []⟩ : ExecState).count + i) = 0 := by
    intro i hi
    simpa using hzero i hi
  have hfail' : exec ((⟨0, []⟩ : ExecState).count + k) ≠ 0 := by
    simpa using hfail
  rw [Application_run,
    apply_all_first_fail exec active home ops ⟨0, []⟩ k hk hzero' hfail']
  simp

/-! ## Run theorems -/

/-- C1: the active extension set is written to the cache iff every executed
content operation's exit code is 0; at the first non-zero exit code the
remaining operations are not attempted (the recorded invocations stop at
the failing operation) and the cache write is never invoked. -/
theorem cache_write_gating (exec : Nat → Int)
    (active : List ContentExtension) (home : String)
    (ops : List KolibriContentOperation) (argv : List String) :
    ((Application_run exec active home ops argv).cache_writes = 1 ↔
      ∀ i < ops.length, exec i = 0) ∧
    (∀ k, k < ops.length → (∀ i < k, exec i = 0) → exec k ≠ 0 →
      (Application_run exec active home ops argv).cache_writes = 0 ∧
      (Application_run exec active home ops argv).invocations =
        (ops.take (k + 1)).map fun op =>
          (⟨apply_args home op, fallback_dirs active⟩ : Invocation)) := by
  constructor
  · constructor
    · intro h1
      by_contra hno
      push_neg at hno
      obtain ⟨i, hi, hne⟩ := hno
      have hex : ∃ j, exec j ≠ 0 := ⟨i, hne⟩
      have hspec := Nat.find_spec hex
      have hmin : ∀ j < Nat.find hex, exec j = 0 := by
        intro j hj
        by_contra hj0
        exact absurd (Nat.find_min hex hj) (by simp [hj0])
      have hlt : Nat.find hex < ops.length :=
        lt_of_le_of_lt (Nat.find_min' hex hne) hi
      rw [Application_run_first_fail exec active home ops argv _
        hlt hmin hspec] at h1
      simp at h1
    · intro h
      rw [Application_run_all_zero exec active home ops argv h]
  · intro k hk hzero hfail
    rw [Application_run_first_fail exec active home ops argv k
      hk hzero hfail]
    exact ⟨rfl, rfl⟩

/-- Witness for `cache_write_gating`: an executor failing the second of
three operations leaves the cache unwritten and stops after the second
invocation. -/
theorem cache_write_gating_witness :
    (Application_run (fun i => if i = 1 then 1 else 0)
        [⟨"/a"⟩] "/h"
        [KolibriContentOperation.RescanContent "c1" false,
         KolibriContentOperation.RescanContent "c2" false,
         KolibriContentOperation.RescanContent "c3" true]
        ["arg"]).cache_writes = 0 ∧
    (Application_run (fun i => if i = 1 then 1 else 0)
        [⟨"/a"⟩] "/h"
        [KolibriContentOperation.RescanContent "c1" false,
         KolibriContentOperation.RescanContent "c2" false,
         KolibriContentOperation.RescanContent "c3" true]
        ["arg"]).invocations =
      ([KolibriContentOperation.RescanContent "c1" false,
        KolibriContentOperation.RescanContent "c2" false,
        KolibriContentOperation.RescanContent "c3" true].take (1 + 1)).map
        fun op =>
          (⟨apply_args "/h" op, fallback_dirs [⟨"/a"⟩]⟩ : Invocation) :=
  (cache_write_gating (fun i => if i = 1 then 1 else 0) [⟨"/a"⟩] "/h"
      [KolibriContentOperation.RescanContent "c1" false,
       KolibriContentOperation.RescanContent "c2" false,
       KolibriContentOperation.RescanContent "c3" true] ["arg"]).2
    1 (by decide) (by decide) (by decide)

/-- C7: every invocation of the managed process carries an environment
whose `KOLIBRI_CONTENT_FALLBACK_DIRS` value is the active extensions'
`content_dir` values joined with `";"` in the active set's order, and that
value depends only on that sequence of directories (deterministic across
runs with the same active set). -/
theorem env_fallback_dirs_contract (exec : Nat → Int)
    (active : List ContentExtension) (home : String)
    (ops : List KolibriContentOperation) (argv : List String) :
    (∀ inv ∈ (Application_run exec active home ops argv).invocations,
      inv.env_fallback_dirs =
        String.intercalate ";"
          (active.map ContentExtension.content_dir)) ∧
    (∀ active2 : List ContentExtension,
      active.map ContentExtension.content_dir =
        active2.map ContentExtension.content_dir →
      fallback_dirs active = fallback_dirs active2) := by
  constructor
  · have base := apply_all_env_invariant exec active home ops ⟨0, []⟩
      (by intro inv hinv; simp at hinv)
    rcases hall : apply_all exec active home ops ⟨0, []⟩ with ⟨s, r⟩
    rw [hall] at base
    have hsinv : ∀ inv ∈ s.invocations,
        inv.env_fallback_dirs = fallback_dirs active := base
    cases r with
    | error code =>
      intro inv hinv
      rw [Application_run, hall] at hinv
      exact hsinv inv hinv
    | ok success =>
      intro inv hinv
      rw [Application_run, hall] at hinv
      by_cases hc : exec s.count = 0 <;>
        · simp only [run_kolibri, hc, if_pos, if_neg, if_true, if_false,
            reduceIte] at hinv
          rcases List.mem_append.mp hinv with h | h
          · exact hsinv inv h
          · rw [List.mem_singleton.mp h]
            rfl
  · intro active2 h2
    simp [fallback_dirs, h2]

/-- Witness for `env_fallback_dirs_contract`: the single invocation of a
run with two active extensions carries the joined fallback value. -/
theorem env_fallback_dirs_contract_witness :
    (⟨["run"], "/a;/b"⟩ : Invocation).env_fallback_dirs =
      String.intercalate ";"
        ([⟨"/a"⟩, ⟨"/b"⟩].map ContentExtension.content_dir) :=
  (env_fallback_dirs_contract (fun _ => 0) [⟨"/a"⟩, ⟨"/b"⟩] "/h" []
      ["run"]).1 ⟨["run"], "/a;/b"⟩ (by decide)

/-- C8 (divergence): after a successful reconciliation the wrapper invokes
the managed process exactly once with its own arguments verbatim, but
because `__run_kolibri` passes `check=True` to `subprocess.run`, a
non-zero exit code of that final process raises `CalledProcessError`
instead of being returned: `run` returns the exit code only when it is 0. -/
theorem run_exit_code_divergence :
    (Application_run (fun _ => 2) [] "/h" [] ["--foo", "--bar=1"]).invocations =
      [⟨["--foo", "--bar=1"], ""⟩] ∧
    (Application_run (fun _ => 2) [] "/h" [] ["--foo", "--bar=1"]).returned =
      Except.error 2 ∧
    (Application_run (fun _ => 0) [] "/h" [] ["--foo", "--bar=1"]).returned =
      Except.ok 0 := by
  refine ⟨?_, ?_, ?_⟩ <;> rfl

end KolibriWrapper
